import Mathlib

/-!
Shallow embedding of `src/components/bluepad32_arduino/arduino_platform.c`:
the controller slot table, the per-slot snapshot mirror, and the bounded
pending-command queue bridging the application context and the protocol
(Bluetooth) context, together with the protocol lifecycle callbacks and the
application-facing accessor/command API.

Side effects on external collaborators (the per-device capability functions
`set_player_leds`, `set_lightbar_color`, `play_dual_rumble`, and the deferred
disconnect `uni_bt_disconnect_device_safe`) are modelled as an explicit trace
of `CapCall` values emitted by the embedded functions.
-/

/-- Sentinel marking an unassigned slot / unassigned device instance
(`UNI_ARDUINO_GAMEPAD_INVALID`, value -1 per the source comment
"-1 means gamepad was not assigned yet"). -/
def UNI_ARDUINO_GAMEPAD_INVALID : Int := -1

/-- Capacity of the pending-command queue (`MAX_PENDING_REQUESTS`). -/
def MAX_PENDING_REQUESTS : Nat := 16

/-- Error codes of the protocol-side `on_device_ready` callback (`uni_error_t`);
only the constructors the source produces are modelled. -/
inductive UniError where
  | success
  | noSlots
  | invalidController
  deriving DecidableEq, Repr

/-- Error codes of the application-facing API (`UNI_ARDUINO_ERROR_*`). The header
defining them is not among the sources. The spec's error taxonomy additionally
names a `BUSY` code (command queue full), included here so statements about
`BUSY` are expressible; `arduino_platform.c` itself never returns it. -/
inductive ArduinoError where
  | success
  | invalidDevice
  | noData
  | busy
  deriving DecidableEq, Repr

/-- The three capability flags stored in a slot's properties
(`ARDUINO_PROPERTY_FLAG_PLAYER_LEDS` / `_RUMBLE` / `_PLAYER_LIGHTBAR`),
modelled as three booleans rather than a numeric bitmask. -/
structure PropertyFlags where
  player_leds : Bool
  rumble : Bool
  lightbar : Bool
  deriving DecidableEq, Repr

/-- A slot's identity record (`arduino_controller_properties_t`). -/
structure ArduinoControllerProperties where
  btaddr : List Nat
  type : Nat
  subtype : Nat
  vendor_id : Nat
  product_id : Nat
  flags : PropertyFlags
  deriving DecidableEq, Repr

/-- Most recent controller input state (`uni_controller_t`), opaque to the
bridge; `gamepad` is the sub-payload extracted by `arduino_get_gamepad_data`. -/
structure UniController where
  gamepad : Nat
  misc : Nat
  deriving DecidableEq, Repr

/-- One entry of the slot table (`arduino_controller_t`): slot index field
(`UNI_ARDUINO_GAMEPAD_INVALID` when unassigned), identity, snapshot, dirty flag. -/
structure ArduinoController where
  idx : Int
  properties : ArduinoControllerProperties
  data : UniController
  data_updated : Bool
  deriving DecidableEq, Repr

/-- All-zero properties, as produced by `memset(..., 0, ...)`. -/
def zeroProperties : ArduinoControllerProperties :=
  { btaddr := [0, 0, 0, 0, 0, 0], type := 0, subtype := 0,
    vendor_id := 0, product_id := 0,
    flags := { player_leds := false, rumble := false, lightbar := false } }

/-- All-zero snapshot, as produced by `memset(..., 0, ...)`. -/
def zeroController : UniController := { gamepad := 0, misc := 0 }

/-- A slot after `memset(..., 0, ...)` followed by `idx = UNI_ARDUINO_GAMEPAD_INVALID`,
as in `arduino_init` and `arduino_on_device_disconnected`. -/
def clearedSlot : ArduinoController :=
  { idx := UNI_ARDUINO_GAMEPAD_INVALID, properties := zeroProperties,
    data := zeroController, data_updated := false }

/-- The fields of a protocol-side device (`uni_hid_device_t`) the bridge reads:
connection address, controller type and subtype, vendor/product ids, and which
of the three `report_parser` capability function pointers are non-NULL. -/
structure DeviceInfo where
  btaddr : List Nat
  controller_type : Nat
  controller_subtype : Nat
  vendor_id : Nat
  product_id : Nat
  has_set_player_leds : Bool
  has_play_dual_rumble : Bool
  has_set_lightbar_color : Bool
  deriving DecidableEq, Repr

/-- A live protocol-side device: its stack identity `id` (standing for the
`uni_hid_device_t*` / its index in the stack's device array), its immutable
fields, and the mutable per-device platform data `arduino_instance_t.controller_idx`. -/
structure UniHidDevice where
  id : Nat
  info : DeviceInfo
  controller_idx : Int
  deriving DecidableEq, Repr

/-- A pending command (`pending_request_t`). The C struct is a tag plus a union of
argument layouts; each command kind only ever reads the argument fields its own
enqueuer wrote, so the union is modelled as a sum. `PENDING_REQUEST_CMD_NONE`
is never enqueued by any API function and is omitted. -/
inductive PendingRequest where
  | lightbarColor (controller_idx : Nat) (r g b : Nat)
  | playerLeds (controller_idx : Nat) (led : Nat)
  | rumble (controller_idx : Nat) (delayedStart duration weak strong : Nat)
  | disconnect (controller_idx : Nat)
  deriving DecidableEq, Repr

/-- Target slot index of a pending command (the `controller_idx` field). -/
def PendingRequest.controller_idx : PendingRequest → Nat
  | .lightbarColor i _ _ _ => i
  | .playerLeds i _ => i
  | .rumble i _ _ _ _ => i
  | .disconnect i => i

/-- Trace element: one invocation of an external collaborator function. -/
inductive CapCall where
  | setPlayerLeds (dev : Nat) (leds : Nat)
  | setLightbarColor (dev : Nat) (r g b : Nat)
  | playDualRumble (dev : Nat) (delayedStart duration weak strong : Nat)
  | disconnectSafe (dev : Nat)
  deriving DecidableEq, Repr

/-- Full bridge state: the slot table `controllers_`, the in-use counter
`used_controllers_`, the protocol stack's list of live devices, and the
pending-command queue `pending_queue_`. -/
structure PlatformState where
  controllers : List ArduinoController
  used_controllers : Int
  devices : List UniHidDevice
  pending_queue : List PendingRequest
  deriving DecidableEq, Repr

/-- Slot-table read `controllers_[i]` (callers establish `i` in range). -/
def slotAt (s : PlatformState) (i : Nat) : ArduinoController :=
  s.controllers.getD i clearedSlot

/-- The state after `arduino_init` with `CONFIG_BLUEPAD32_MAX_DEVICES = n`:
every slot zeroed with `idx = UNI_ARDUINO_GAMEPAD_INVALID`, no devices, and the
queues created empty by `arduino_on_init_complete`. -/
def arduino_init (n : Nat) : PlatformState :=
  { controllers := List.replicate n clearedSlot, used_controllers := 0,
    devices := [], pending_queue := [] }

/-- FreeRTOS `xQueueSendToBack(queue, item, 0)` on the bounded pending queue:
append when below capacity (returning `pdTRUE`), otherwise drop the item and
return `pdFALSE` (errQUEUE_FULL). -/
def xQueueSendToBack (queue : List PendingRequest) (request : PendingRequest) :
    List PendingRequest × Bool :=
  if queue.length < MAX_PENDING_REQUESTS then (queue ++ [request], true)
  else (queue, false)

/-- The device search `uni_hid_device_get_instance_with_predicate(predicate_arduino_index, idx)`:
the first live device whose `arduino_instance_t.controller_idx` equals the wanted index. -/
def resolveDevice (devices : List UniHidDevice) (wanted : Nat) : Option UniHidDevice :=
  devices.find? (fun d => d.controller_idx == (wanted : Int))

/-- The identity record `arduino_on_device_ready` copies into a freshly assigned
slot (source lines 210-218). Faithful to the source, the `subtype` field is
populated from `d->controller_type`, not from the device's subtype. -/
def mkProperties (d : UniHidDevice) : ArduinoControllerProperties :=
  { btaddr := d.info.btaddr
    type := d.info.controller_type
    subtype := d.info.controller_type
    vendor_id := d.info.vendor_id
    product_id := d.info.product_id
    flags := { player_leds := d.info.has_set_player_leds
               rumble := d.info.has_play_dual_rumble
               lightbar := d.info.has_set_lightbar_color } }

/-- The scan "find first available controller": index of the first slot whose
`idx` field is the invalid sentinel. -/
def firstFreeSlot : List ArduinoController → Option Nat
  | [] => none
  | c :: rest =>
      if c.idx = UNI_ARDUINO_GAMEPAD_INVALID then some 0
      else (firstFreeSlot rest).map (· + 1)

/-- Result of `arduino_on_device_ready`: status, updated slot table and in-use
counter, updated device (its instance field), and the emitted collaborator calls. -/
structure ReadyResult where
  status : UniError
  controllers : List ArduinoController
  used : Int
  dev : UniHidDevice
  calls : List CapCall
  deriving DecidableEq, Repr

/-- Embedding of `arduino_on_device_ready`: reject when all seats are used
(`NO_SLOTS`); reject a device already holding a slot (`INVALID_CONTROLLER`);
otherwise assign the first free slot, copy the identity in, bump the counter,
and, when the device has `set_player_leds`, invoke it once with
`ins->controller_idx + 1` (as a C `uint8_t`) before returning `SUCCESS`. -/
def arduino_on_device_ready (controllers : List ArduinoController) (used : Int)
    (d : UniHidDevice) : ReadyResult :=
  if used = (controllers.length : Int) then
    ⟨.noSlots, controllers, used, d, []⟩
  else if d.controller_idx ≠ UNI_ARDUINO_GAMEPAD_INVALID then
    ⟨.invalidController, controllers, used, d, []⟩
  else
    let r :=
      match firstFreeSlot controllers with
      | some i =>
          (controllers.set i
            { controllers.getD i clearedSlot with
                idx := (i : Int), properties := mkProperties d },
           used + 1, { d with controller_idx := (i : Int) })
      | none => (controllers, used, d)
    let calls :=
      if d.info.has_set_player_leds then
        [CapCall.setPlayerLeds d.id (r.2.2.controller_idx + 1).toNat]
      else []
    ⟨.success, r.1, r.2.1, r.2.2, calls⟩

/-- Result of `arduino_on_device_disconnected`: updated slot table, in-use
counter, and device instance. -/
structure DisconnectResult where
  controllers : List ArduinoController
  used : Int
  dev : UniHidDevice
  deriving DecidableEq, Repr

/-- Embedding of `arduino_on_device_disconnected`: no-op unless the device
holds a slot; on an out-of-range held index, log and bail; otherwise decrement
the counter, zero the slot, restore the invalid sentinel, and clear the instance. -/
def arduino_on_device_disconnected (controllers : List ArduinoController) (used : Int)
    (d : UniHidDevice) : DisconnectResult :=
  if d.controller_idx ≠ UNI_ARDUINO_GAMEPAD_INVALID then
    if d.controller_idx < 0 ∨ (controllers.length : Int) ≤ d.controller_idx then
      ⟨controllers, used, d⟩
    else
      ⟨controllers.set d.controller_idx.toNat clearedSlot, used - 1,
        { d with controller_idx := UNI_ARDUINO_GAMEPAD_INVALID }⟩
  else ⟨controllers, used, d⟩

/-- Embedding of `arduino_on_device_connected`: the instance data is zeroed and
the controller index set to the invalid sentinel. -/
def arduino_on_device_connected (d : UniHidDevice) : UniHidDevice :=
  { d with controller_idx := UNI_ARDUINO_GAMEPAD_INVALID }

/-- Embedding of `process_pending_requests`: pop until the queue is empty; for
each command resolve its target slot index to a live device; when resolution
fails, log and RETURN (the popped command is dropped and the drain stops, the
rest of the queue is left for a later drain); otherwise dispatch to the matching
capability only when the device advertises it (non-NULL function pointer), with
`Disconnect` routed through the deferred `uni_bt_disconnect_device_safe`.
Returns the remaining queue and the trace of collaborator calls. -/
def process_pending_requests (devices : List UniHidDevice) :
    List PendingRequest → List PendingRequest × List CapCall
  | [] => ([], [])
  | request :: rest =>
    match resolveDevice devices request.controller_idx with
    | none => (rest, [])
    | some d =>
      let calls :=
        match request with
        | .lightbarColor _ r g b =>
            if d.info.has_set_lightbar_color then [CapCall.setLightbarColor d.id r g b] else []
        | .playerLeds _ led =>
            if d.info.has_set_player_leds then [CapCall.setPlayerLeds d.id led] else []
        | .rumble _ ds dur w st =>
            if d.info.has_play_dual_rumble then [CapCall.playDualRumble d.id ds dur w st] else []
        | .disconnect _ => [CapCall.disconnectSafe d.id]
      let t := process_pending_requests devices rest
      (t.1, calls ++ t.2)

/-- Embedding of `arduino_on_controller_data`: drain the pending queue, then,
when the device's instance index is in range, publish the snapshot into the
shared slot under the mutex and set the dirty flag. -/
def arduino_on_controller_data (s : PlatformState) (d : UniHidDevice)
    (ctl : UniController) : PlatformState × List CapCall :=
  let t := process_pending_requests s.devices s.pending_queue
  let s1 : PlatformState := { s with pending_queue := t.1 }
  if d.controller_idx < 0 ∨ (s1.controllers.length : Int) ≤ d.controller_idx then
    (s1, t.2)
  else
    let slot' := { slotAt s1 d.controller_idx.toNat with data := ctl, data_updated := true }
    ({ s1 with controllers := s1.controllers.set d.controller_idx.toNat slot' }, t.2)

/-- Embedding of `arduino_get_controller_data`: guard the index and the slot's
assignment, then under the mutex either copy out the snapshot and clear the
dirty flag (`SUCCESS`) or report `NO_DATA`. The `out` parameter is an `Option`. -/
def arduino_get_controller_data (s : PlatformState) (idx : Int) :
    ArduinoError × Option UniController × PlatformState :=
  if idx < 0 ∨ (s.controllers.length : Int) ≤ idx then (.invalidDevice, none, s)
  else if (slotAt s idx.toNat).idx = UNI_ARDUINO_GAMEPAD_INVALID then (.invalidDevice, none, s)
  else if (slotAt s idx.toNat).data_updated then
    let slot' := { slotAt s idx.toNat with data_updated := false }
    (.success, some (slotAt s idx.toNat).data,
      { s with controllers := s.controllers.set idx.toNat slot' })
  else (.noData, none, s)

/-- Embedding of `arduino_get_gamepad_data`: same as `arduino_get_controller_data`
but copying only the `gamepad` member of the snapshot. -/
def arduino_get_gamepad_data (s : PlatformState) (idx : Int) :
    ArduinoError × Option Nat × PlatformState :=
  if idx < 0 ∨ (s.controllers.length : Int) ≤ idx then (.invalidDevice, none, s)
  else if (slotAt s idx.toNat).idx = UNI_ARDUINO_GAMEPAD_INVALID then (.invalidDevice, none, s)
  else if (slotAt s idx.toNat).data_updated then
    let slot' := { slotAt s idx.toNat with data_updated := false }
    (.success, some (slotAt s idx.toNat).data.gamepad,
      { s with controllers := s.controllers.set idx.toNat slot' })
  else (.noData, none, s)

/-- Embedding of `arduino_get_controller_properties`: guard, then copy the
identity record under the mutex; a pure read. -/
def arduino_get_controller_properties (s : PlatformState) (idx : Int) :
    ArduinoError × Option ArduinoControllerProperties × PlatformState :=
  if idx < 0 ∨ (s.controllers.length : Int) ≤ idx then (.invalidDevice, none, s)
  else if (slotAt s idx.toNat).idx = UNI_ARDUINO_GAMEPAD_INVALID then (.invalidDevice, none, s)
  else (.success, some (slotAt s idx.toNat).properties, s)

/-- Embedding of `arduino_get_gamepad_properties`, an alias of
`arduino_get_controller_properties`. -/
def arduino_get_gamepad_properties (s : PlatformState) (idx : Int) :
    ArduinoError × Option ArduinoControllerProperties × PlatformState :=
  arduino_get_controller_properties s idx

/-- Embedding of `arduino_set_player_leds`: guard, then enqueue a
`PENDING_REQUEST_CMD_PLAYER_LEDS`; the result of `xQueueSendToBack` is ignored
by the source, and `SUCCESS` is returned. -/
def arduino_set_player_leds (s : PlatformState) (idx : Int) (leds : Nat) :
    ArduinoError × PlatformState :=
  if idx < 0 ∨ (s.controllers.length : Int) ≤ idx then (.invalidDevice, s)
  else if (slotAt s idx.toNat).idx = UNI_ARDUINO_GAMEPAD_INVALID then (.invalidDevice, s)
  else
    (.success, { s with pending_queue :=
      (xQueueSendToBack s.pending_queue (.playerLeds idx.toNat leds)).1 })

/-- Embedding of `arduino_set_lightbar_color`: guard, then enqueue a
`PENDING_REQUEST_CMD_LIGHTBAR_COLOR`; the result of `xQueueSendToBack` is
ignored by the source, and `SUCCESS` is returned. -/
def arduino_set_lightbar_color (s : PlatformState) (idx : Int) (r g b : Nat) :
    ArduinoError × PlatformState :=
  if idx < 0 ∨ (s.controllers.length : Int) ≤ idx then (.invalidDevice, s)
  else if (slotAt s idx.toNat).idx = UNI_ARDUINO_GAMEPAD_INVALID then (.invalidDevice, s)
  else
    (.success, { s with pending_queue :=
      (xQueueSendToBack s.pending_queue (.lightbarColor idx.toNat r g b)).1 })

/-- Embedding of `arduino_play_dual_rumble`: guard, then enqueue a
`PENDING_REQUEST_CMD_RUMBLE`; the result of `xQueueSendToBack` is ignored by
the source, and `SUCCESS` is returned. -/
def arduino_play_dual_rumble (s : PlatformState) (idx : Int)
    (delayedStart duration weak strong : Nat) : ArduinoError × PlatformState :=
  if idx < 0 ∨ (s.controllers.length : Int) ≤ idx then (.invalidDevice, s)
  else if (slotAt s idx.toNat).idx = UNI_ARDUINO_GAMEPAD_INVALID then (.invalidDevice, s)
  else
    (.success, { s with pending_queue :=
      (xQueueSendToBack s.pending_queue (.rumble idx.toNat delayedStart duration weak strong)).1 })

/-- Embedding of `arduino_disconnect_controller`: guard, then enqueue a
`PENDING_REQUEST_CMD_DISCONNECT`; the result of `xQueueSendToBack` is ignored
by the source, and `SUCCESS` is returned. -/
def arduino_disconnect_controller (s : PlatformState) (idx : Int) :
    ArduinoError × PlatformState :=
  if idx < 0 ∨ (s.controllers.length : Int) ≤ idx then (.invalidDevice, s)
  else if (slotAt s idx.toNat).idx = UNI_ARDUINO_GAMEPAD_INVALID then (.invalidDevice, s)
  else
    (.success, { s with pending_queue :=
      (xQueueSendToBack s.pending_queue (.disconnect idx.toNat)).1 })

/-- Protocol-context lifecycle events driving the slot table. -/
inductive BridgeEvent where
  | connected (id : Nat) (info : DeviceInfo)
  | ready (id : Nat)
  | disconnected (id : Nat)
  deriving DecidableEq, Repr

/-- Replace the device with the given id by its updated value (the effect of
mutating through the `uni_hid_device_t*` pointer). -/
def replaceDevice (devices : List UniHidDevice) (d' : UniHidDevice) : List UniHidDevice :=
  devices.map (fun x => if x.id = d'.id then d' else x)

/-- One protocol-context lifecycle step: `connected` has the stack add the
device and the platform reset its instance (`arduino_on_device_connected`);
`ready` runs `arduino_on_device_ready` on the named live device; `disconnected`
runs `arduino_on_device_disconnected` and the stack then drops the device. -/
def stepEvent (s : PlatformState) : BridgeEvent → PlatformState
  | .connected id info =>
      { s with devices := s.devices.filter (fun x => x.id != id) ++
          [arduino_on_device_connected { id := id, info := info, controller_idx := 0 }] }
  | .ready id =>
      match s.devices.find? (fun x => x.id == id) with
      | none => s
      | some d =>
          let r := arduino_on_device_ready s.controllers s.used_controllers d
          { s with controllers := r.controllers, used_controllers := r.used,
                   devices := replaceDevice s.devices r.dev }
  | .disconnected id =>
      match s.devices.find? (fun x => x.id == id) with
      | none => s
      | some d =>
          let r := arduino_on_device_disconnected s.controllers s.used_controllers d
          { s with controllers := r.controllers, used_controllers := r.used,
                   devices := s.devices.filter (fun x => x.id != id) }

/-- Run a sequence of lifecycle events from the initialized state with
`CONFIG_BLUEPAD32_MAX_DEVICES = n`. -/
def runEvents (n : Nat) (events : List BridgeEvent) : PlatformState :=
  events.foldl stepEvent (arduino_init n)

/-- Number of slots currently assigned (idx field not the invalid sentinel). -/
def assignedCount (controllers : List ArduinoController) : Nat :=
  controllers.countP (fun c => c.idx != UNI_ARDUINO_GAMEPAD_INVALID)

/-- Every assigned slot stores its own index in its idx field. -/
def slotsSelfIndexed (controllers : List ArduinoController) : Prop :=
  ∀ i, i < controllers.length →
    (controllers.getD i clearedSlot).idx ≠ UNI_ARDUINO_GAMEPAD_INVALID →
    (controllers.getD i clearedSlot).idx = (i : Int)

/-- Distinct concrete device identities for scenarios: device k has full
capabilities and identity fields derived from k. -/
def devInfo (k : Nat) : DeviceInfo :=
  { btaddr := [k, k, k, k, k, k], controller_type := 10 + k, controller_subtype := 20 + k,
    vendor_id := 100 + k, product_id := 200 + k,
    has_set_player_leds := true, has_play_dual_rumble := true, has_set_lightbar_color := true }

/-- Four devices connect and become ready on a 4-slot table. -/
def scenarioAssign4 : List BridgeEvent :=
  [.connected 10 (devInfo 1), .ready 10,
   .connected 11 (devInfo 2), .ready 11,
   .connected 12 (devInfo 3), .ready 12,
   .connected 13 (devInfo 4), .ready 13]

/-- The state after the four assignments. -/
def s4 : PlatformState := runEvents 4 scenarioAssign4

example : s4.controllers.map (fun c => c.idx) = [0, 1, 2, 3] := by decide
example : s4.used_controllers = 4 := by decide
example : s4.devices.map (fun d => (d.id, d.controller_idx)) = [(10, 0), (11, 1), (12, 2), (13, 3)] := by decide
example : (arduino_on_device_ready s4.controllers s4.used_controllers
    { id := 14, info := devInfo 5, controller_idx := -1 }).status = .noSlots := by decide
example : (runEvents 4 (scenarioAssign4 ++ [.connected 14 (devInfo 5), .ready 14])).controllers = s4.controllers := by decide
example :
    let s5 := runEvents 4 (scenarioAssign4 ++ [.disconnected 12, .connected 15 (devInfo 6), .ready 15])
    (slotAt s5 2).idx = 2 ∧ (slotAt s5 2).properties.vendor_id = 106 := by decide

/-- Reading an updated list at the updated position yields the new element. -/
theorem getD_set_self {α : Type} (l : List α) (i : Nat) (a dflt : α) (h : i < l.length) :
    (l.set i a).getD i dflt = a := by
  rw [List.getD_eq_getElem?_getD, List.getElem?_set_self h]
  rfl

/-- Reading an updated list away from the updated position is unchanged. -/
theorem getD_set_ne {α : Type} (l : List α) {i j : Nat} (a dflt : α) (h : i ≠ j) :
    (l.set i a).getD j dflt = l.getD j dflt := by
  rw [List.getD_eq_getElem?_getD, List.getElem?_set_ne h, ← List.getD_eq_getElem?_getD]

/-- Effect of a single-position update on a predicate count. -/
theorem countP_set_add {α : Type} (p : α → Bool) (l : List α) (i : Nat) (a dflt : α)
    (h : i < l.length) :
    (l.set i a).countP p + (if p (l.getD i dflt) then 1 else 0) =
      l.countP p + (if p a then 1 else 0) := by
  induction l generalizing i with
  | nil => simp at h
  | cons x xs ih =>
    cases i with
    | zero => simp [List.countP_cons]; omega
    | succ n =>
      have hn : n < xs.length := Nat.lt_of_succ_lt_succ h
      have := ih n hn
      simp [List.countP_cons] at *
      omega

/-- A target is invalid for the application-facing API when the index is out of
range or the slot it names is unassigned. -/
def invalidTarget (s : PlatformState) (idx : Int) : Prop :=
  (idx < 0 ∨ (s.controllers.length : Int) ≤ idx) ∨
    (slotAt s idx.toNat).idx = UNI_ARDUINO_GAMEPAD_INVALID

/-- C6: every application-facing operation returns INVALID_DEVICE exactly when
the index is out of range or the slot is unassigned, and in that case it has no
side effects: the state is returned unchanged and nothing is enqueued. -/
theorem C6_invalid_device_guard (s : PlatformState) (idx : Int)
    (leds r g b ds dur w st : Nat) :
    ((arduino_get_gamepad_data s idx).1 = .invalidDevice ↔ invalidTarget s idx) ∧
    ((arduino_get_controller_data s idx).1 = .invalidDevice ↔ invalidTarget s idx) ∧
    ((arduino_get_controller_properties s idx).1 = .invalidDevice ↔ invalidTarget s idx) ∧
    ((arduino_get_gamepad_properties s idx).1 = .invalidDevice ↔ invalidTarget s idx) ∧
    ((arduino_set_player_leds s idx leds).1 = .invalidDevice ↔ invalidTarget s idx) ∧
    ((arduino_set_lightbar_color s idx r g b).1 = .invalidDevice ↔ invalidTarget s idx) ∧
    ((arduino_play_dual_rumble s idx ds dur w st).1 = .invalidDevice ↔ invalidTarget s idx) ∧
    ((arduino_disconnect_controller s idx).1 = .invalidDevice ↔ invalidTarget s idx) ∧
    (invalidTarget s idx →
      arduino_get_gamepad_data s idx = (.invalidDevice, none, s) ∧
      arduino_get_controller_data s idx = (.invalidDevice, none, s) ∧
      arduino_get_controller_properties s idx = (.invalidDevice, none, s) ∧
      arduino_get_gamepad_properties s idx = (.invalidDevice, none, s) ∧
      arduino_set_player_leds s idx leds = (.invalidDevice, s) ∧
      arduino_set_lightbar_color s idx r g b = (.invalidDevice, s) ∧
      arduino_play_dual_rumble s idx ds dur w st = (.invalidDevice, s) ∧
      arduino_disconnect_controller s idx = (.invalidDevice, s)) := by
  by_cases h1 : idx < 0 ∨ (s.controllers.length : Int) ≤ idx
  · simp [arduino_get_gamepad_data, arduino_get_controller_data,
      arduino_get_controller_properties, arduino_get_gamepad_properties,
      arduino_set_player_leds, arduino_set_lightbar_color, arduino_play_dual_rumble,
      arduino_disconnect_controller, invalidTarget, h1]
  · by_cases h2 : (slotAt s idx.toNat).idx = UNI_ARDUINO_GAMEPAD_INVALID
    · simp [arduino_get_gamepad_data, arduino_get_controller_data,
        arduino_get_controller_properties, arduino_get_gamepad_properties,
        arduino_set_player_leds, arduino_set_lightbar_color, arduino_play_dual_rumble,
        arduino_disconnect_controller, invalidTarget, h1, h2]
    · by_cases h3 : (slotAt s idx.toNat).data_updated
      · simp [arduino_get_gamepad_data, arduino_get_controller_data,
          arduino_get_controller_properties, arduino_get_gamepad_properties,
          arduino_set_player_leds, arduino_set_lightbar_color, arduino_play_dual_rumble,
          arduino_disconnect_controller, invalidTarget, h1, h2, h3]
      · simp [arduino_get_gamepad_data, arduino_get_controller_data,
          arduino_get_controller_properties, arduino_get_gamepad_properties,
          arduino_set_player_leds, arduino_set_lightbar_color, arduino_play_dual_rumble,
          arduino_disconnect_controller, invalidTarget, h1, h2, h3]

/-- Closed instance of the C6 guard theorem at a concrete invalid input. -/
theorem C6_invalid_device_guard_witness :
    (arduino_get_gamepad_data (arduino_init 4) (-1)).1 = .invalidDevice :=
  (C6_invalid_device_guard (arduino_init 4) (-1) 0 0 0 0 0 0 0 0).1.mpr
    (Or.inl (Or.inl (by decide)))

/-- Reading the slot table of an updated state at the updated position. -/
theorem slotAt_update (ctrls : List ArduinoController) (u : Int) (devs : List UniHidDevice)
    (q : List PendingRequest) (j : Nat) (a : ArduinoController) (h : j < ctrls.length) :
    slotAt { controllers := ctrls.set j a, used_controllers := u, devices := devs,
             pending_queue := q } j = a :=
  getD_set_self ctrls j a clearedSlot h

/-- Shape of the state produced by a publish (`arduino_on_controller_data`) for a
device whose instance index j is in range: the queue is drained and slot j gets
the new snapshot with the dirty flag set. -/
theorem publish_state (s : PlatformState) (d : UniHidDevice) (ctl : UniController) (j : Nat)
    (hidx : d.controller_idx = (j : Int)) (hj : j < s.controllers.length) :
    (arduino_on_controller_data s d ctl).1 =
      { controllers := s.controllers.set j ({ slotAt s j with data := ctl, data_updated := true }),
        used_controllers := s.used_controllers, devices := s.devices,
        pending_queue := (process_pending_requests s.devices s.pending_queue).1 } := by
  simp [arduino_on_controller_data, hidx, slotAt]
  rw [if_neg (by omega : ¬((j : Int) < 0 ∨ s.controllers.length ≤ j))]

/-- Consume (`arduino_get_controller_data`) on an assigned slot whose dirty flag
is set: SUCCESS, the snapshot is copied out, and the dirty flag is cleared. -/
theorem consume_dirty (s : PlatformState) (j : Nat) (hj : j < s.controllers.length)
    (ha : (slotAt s j).idx ≠ UNI_ARDUINO_GAMEPAD_INVALID)
    (hd : (slotAt s j).data_updated = true) :
    arduino_get_controller_data s (j : Int) =
      (.success, some (slotAt s j).data,
        { s with controllers := s.controllers.set j ({ slotAt s j with data_updated := false }) }) := by
  have h1 : ¬((j : Int) < 0 ∨ (s.controllers.length : Int) ≤ (j : Int)) := by
    push_neg
    refine ⟨by omega, ?_⟩
    exact_mod_cast hj
  simp [arduino_get_controller_data, h1, ha, hd, hj]

/-- Consume (`arduino_get_controller_data`) on an assigned slot whose dirty flag
is clear: NO_DATA and no side effects. -/
theorem consume_clean (s : PlatformState) (j : Nat) (hj : j < s.controllers.length)
    (ha : (slotAt s j).idx ≠ UNI_ARDUINO_GAMEPAD_INVALID)
    (hd : (slotAt s j).data_updated = false) :
    arduino_get_controller_data s (j : Int) = (.noData, none, s) := by
  have h1 : ¬((j : Int) < 0 ∨ (s.controllers.length : Int) ≤ (j : Int)) := by
    push_neg
    refine ⟨by omega, ?_⟩
    exact_mod_cast hj
  simp [arduino_get_controller_data, h1, ha, hd, hj]

/-- C3: on an assigned slot, a consume immediately after a publish with no
intervening publish returns exactly the published snapshot with SUCCESS and
clears the dirty flag; a second immediate consume returns NO_DATA and has no
side effects, so a published value is never re-delivered. -/
theorem C3_publish_then_consume_exactly_once (s : PlatformState) (d : UniHidDevice)
    (ctl : UniController) (j : Nat)
    (hidx : d.controller_idx = (j : Int)) (hj : j < s.controllers.length)
    (hassigned : (slotAt s j).idx ≠ UNI_ARDUINO_GAMEPAD_INVALID) :
    ((arduino_get_controller_data (arduino_on_controller_data s d ctl).1 (j : Int)).1 = .success ∧
     (arduino_get_controller_data (arduino_on_controller_data s d ctl).1 (j : Int)).2.1 = some ctl) ∧
    (slotAt (arduino_get_controller_data (arduino_on_controller_data s d ctl).1 (j : Int)).2.2 j).data_updated = false ∧
    arduino_get_controller_data
        (arduino_get_controller_data (arduino_on_controller_data s d ctl).1 (j : Int)).2.2 (j : Int) =
      (.noData, none,
        (arduino_get_controller_data (arduino_on_controller_data s d ctl).1 (j : Int)).2.2) := by
  rw [publish_state s d ctl j hidx hj]
  have hjP : j < (s.controllers.set j
      ({ slotAt s j with data := ctl, data_updated := true })).length := by
    simpa using hj
  have hslotP : slotAt
      { controllers := s.controllers.set j ({ slotAt s j with data := ctl, data_updated := true }),
        used_controllers := s.used_controllers, devices := s.devices,
        pending_queue := (process_pending_requests s.devices s.pending_queue).1 } j =
      { slotAt s j with data := ctl, data_updated := true } :=
    slotAt_update _ _ _ _ _ _ hj
  rw [consume_dirty _ j hjP (by rw [hslotP]; exact hassigned) (by rw [hslotP])]
  rw [hslotP]
  have hslotQ : slotAt
      { controllers := (s.controllers.set j
            ({ slotAt s j with data := ctl, data_updated := true })).set j
          ({ { slotAt s j with data := ctl, data_updated := true } with data_updated := false }),
        used_controllers := s.used_controllers, devices := s.devices,
        pending_queue := (process_pending_requests s.devices s.pending_queue).1 } j =
      { { slotAt s j with data := ctl, data_updated := true } with data_updated := false } :=
    slotAt_update _ _ _ _ _ _ hjP
  refine ⟨⟨rfl, rfl⟩, ?_, ?_⟩
  · rw [hslotQ]
  · exact consume_clean _ j (by simpa using hj) (by rw [hslotQ]; exact hassigned) (by rw [hslotQ])

/-- Closed instance of the C3 theorem: publish then consume twice on slot 0 of
the concrete four-controller state. -/
theorem C3_publish_then_consume_exactly_once_witness :
    ((arduino_get_controller_data
        (arduino_on_controller_data s4 { id := 10, info := devInfo 1, controller_idx := 0 }
          { gamepad := 77, misc := 5 }).1 0).1 = ArduinoError.success) :=
  (C3_publish_then_consume_exactly_once s4
    { id := 10, info := devInfo 1, controller_idx := 0 } { gamepad := 77, misc := 5 } 0
    (by decide) (by decide) (by decide)).1.1

/-- C7: during drain, a SetLightbarColor / SetPlayerLEDs / Rumble command whose
slot resolves to a live device invokes that device's matching capability exactly
once with the enqueued arguments when the capability is advertised (non-null
function pointer), and is silently skipped with zero capability calls otherwise;
in both cases no error is raised and the drain continues with the rest of the
queue. -/
theorem C7_capability_dispatch (devices : List UniHidDevice) (rest : List PendingRequest)
    (idx r g b led ds dur w st : Nat) (d : UniHidDevice) :
    (resolveDevice devices idx = some d →
      process_pending_requests devices (.lightbarColor idx r g b :: rest) =
        ((process_pending_requests devices rest).1,
         (if d.info.has_set_lightbar_color then [CapCall.setLightbarColor d.id r g b] else []) ++
           (process_pending_requests devices rest).2)) ∧
    (resolveDevice devices idx = some d →
      process_pending_requests devices (.playerLeds idx led :: rest) =
        ((process_pending_requests devices rest).1,
         (if d.info.has_set_player_leds then [CapCall.setPlayerLeds d.id led] else []) ++
           (process_pending_requests devices rest).2)) ∧
    (resolveDevice devices idx = some d →
      process_pending_requests devices (.rumble idx ds dur w st :: rest) =
        ((process_pending_requests devices rest).1,
         (if d.info.has_play_dual_rumble then [CapCall.playDualRumble d.id ds dur w st] else []) ++
           (process_pending_requests devices rest).2)) := by
  refine ⟨?_, ?_, ?_⟩ <;> intro h <;>
    simp [process_pending_requests, PendingRequest.controller_idx, h]

/-- Closed instance of the C7 theorem: a lightbar command for live slot 1 with
the capability present is dispatched exactly once with (255, 0, 0). -/
theorem C7_capability_dispatch_witness :
    process_pending_requests s4.devices [PendingRequest.lightbarColor 1 255 0 0] =
      ([], [CapCall.setLightbarColor 11 255 0 0]) := by
  have h : resolveDevice s4.devices 1 = some { id := 11, info := devInfo 2, controller_idx := 1 } := by
    decide
  rw [(C7_capability_dispatch s4.devices [] 1 255 0 0 0 0 0 0 0
    { id := 11, info := devInfo 2, controller_idx := 1 }).1 h]
  decide

/-- Devices list for the C1 scenario: one live device holding slot 5, with all
capabilities advertised. -/
def c1Devices : List UniHidDevice := [{ id := 7, info := devInfo 1, controller_idx := 5 }]

/-- C1 counterexample: with a queue holding a command for unresolvable slot 3
followed by a command for live slot 5, the drain discards the first command but
then stops: the command behind it is not executed in the same drain (the call
trace is empty, not the player-LED call the claim implies) and it remains in
the queue. -/
theorem C1_counterexample :
    process_pending_requests c1Devices [.playerLeds 3 1, .playerLeds 5 2] =
      ([PendingRequest.playerLeds 5 2], []) ∧
    (process_pending_requests c1Devices [.playerLeds 3 1, .playerLeds 5 2]).2 ≠
      [CapCall.setPlayerLeds 7 2] := by
  decide

/-- C1 amended: a drained command whose slot index no longer resolves to a live
device is silently discarded — no capability function is invoked for it and no
error is surfaced to any caller — but the drain aborts at that point: the
commands behind it stay in the queue for a later drain rather than being
processed in the same drain. -/
theorem C1_unresolvable_command_dropped (devices : List UniHidDevice)
    (request : PendingRequest) (rest : List PendingRequest)
    (h : resolveDevice devices request.controller_idx = none) :
    process_pending_requests devices (request :: rest) = (rest, []) := by
  simp [process_pending_requests, h]

/-- Closed instance of the C1 amended theorem. -/
theorem C1_unresolvable_command_dropped_witness :
    process_pending_requests c1Devices [PendingRequest.playerLeds 3 1] = ([], []) :=
  C1_unresolvable_command_dropped c1Devices (PendingRequest.playerLeds 3 1) [] (by decide)

/-- The four-controller state with the pending queue filled to capacity by
sixteen player-LED enqueues. -/
def s4full : PlatformState :=
  (List.range 16).foldl (fun s k => (arduino_set_player_leds s 0 k).2) s4

set_option maxRecDepth 4000 in
/-- C2 counterexample: on an in-range, assigned slot with the queue already at
its full capacity of 16, a further command enqueue does not grow the queue but
reports SUCCESS, not BUSY, to the caller. -/
theorem C2_counterexample :
    s4full.pending_queue.length = 16 ∧
    arduino_set_lightbar_color s4full 0 255 0 0 = (ArduinoError.success, s4full) ∧
    ArduinoError.success ≠ ArduinoError.busy := by
  decide

/-- C2 amended: on an in-range, assigned slot, every command enqueue is
non-blocking and reports SUCCESS unconditionally (the BUSY report the queue's
fullness produces inside `xQueueSendToBack` is ignored by the source); when the
queue holds its full capacity of 16 the command is silently dropped and the
queue does not grow, and while the queue is below capacity — in particular
after a drain empties it — each enqueue appends its command. -/
theorem C2_enqueue_success_never_busy (s : PlatformState) (idx : Int)
    (leds r g b ds dur w st : Nat) (hv : ¬ invalidTarget s idx) :
    ((arduino_set_player_leds s idx leds).1 = .success ∧
     (arduino_set_lightbar_color s idx r g b).1 = .success ∧
     (arduino_play_dual_rumble s idx ds dur w st).1 = .success ∧
     (arduino_disconnect_controller s idx).1 = .success) ∧
    (MAX_PENDING_REQUESTS ≤ s.pending_queue.length →
      (arduino_set_player_leds s idx leds).2 = s ∧
      (arduino_set_lightbar_color s idx r g b).2 = s ∧
      (arduino_play_dual_rumble s idx ds dur w st).2 = s ∧
      (arduino_disconnect_controller s idx).2 = s) ∧
    (s.pending_queue.length < MAX_PENDING_REQUESTS →
      (arduino_set_player_leds s idx leds).2.pending_queue =
        s.pending_queue ++ [.playerLeds idx.toNat leds] ∧
      (arduino_set_lightbar_color s idx r g b).2.pending_queue =
        s.pending_queue ++ [.lightbarColor idx.toNat r g b] ∧
      (arduino_play_dual_rumble s idx ds dur w st).2.pending_queue =
        s.pending_queue ++ [.rumble idx.toNat ds dur w st] ∧
      (arduino_disconnect_controller s idx).2.pending_queue =
        s.pending_queue ++ [.disconnect idx.toNat]) := by
  have h1 : ¬(idx < 0 ∨ (s.controllers.length : Int) ≤ idx) := fun h => hv (Or.inl h)
  have h2 : ¬((slotAt s idx.toNat).idx = UNI_ARDUINO_GAMEPAD_INVALID) := fun h => hv (Or.inr h)
  refine ⟨?_, ?_, ?_⟩
  · simp [arduino_set_player_leds, arduino_set_lightbar_color, arduino_play_dual_rumble,
      arduino_disconnect_controller, h1, h2]
  · intro hfull
    have hq : ¬(s.pending_queue.length < MAX_PENDING_REQUESTS) := by omega
    simp [arduino_set_player_leds, arduino_set_lightbar_color, arduino_play_dual_rumble,
      arduino_disconnect_controller, xQueueSendToBack, h1, h2, hq]
  · intro hroom
    simp [arduino_set_player_leds, arduino_set_lightbar_color, arduino_play_dual_rumble,
      arduino_disconnect_controller, xQueueSendToBack, h1, h2, hroom]

set_option maxRecDepth 4000 in
/-- Closed instance of the C2 amended theorem: an enqueue on the full queue
reports SUCCESS. -/
theorem C2_enqueue_success_never_busy_witness :
    (arduino_set_player_leds s4full 0 3).1 = ArduinoError.success :=
  (C2_enqueue_success_never_busy s4full 0 3 0 0 0 0 0 0 0
    (by unfold invalidTarget; decide)).1.1

/-- C9 counterexample: with all four slots of the reachable full state occupied
and a device that already holds slot 0, `arduino_on_device_ready` fails with
NO_SLOTS — the full-table check fires before the already-assigned check — and
not with the INVALID_CONTROLLER the claim requires in that situation. -/
theorem C9_counterexample :
    (arduino_on_device_ready s4.controllers s4.used_controllers
        { id := 10, info := devInfo 1, controller_idx := 0 }).status = UniError.noSlots ∧
    UniError.noSlots ≠ UniError.invalidController := by
  decide

/-- C9 amended: `arduino_on_device_ready` on a device whose instance already
holds a slot fails with INVALID_CONTROLLER and is a no-op whenever fewer than
all N slots are in use; when the in-use counter equals N the full-table check
fires first and the call fails with NO_SLOTS, still as a no-op. -/
theorem C9_already_assigned_rejected (controllers : List ArduinoController) (used : Int)
    (d : UniHidDevice) :
    (used ≠ (controllers.length : Int) → d.controller_idx ≠ UNI_ARDUINO_GAMEPAD_INVALID →
      arduino_on_device_ready controllers used d =
        ⟨.invalidController, controllers, used, d, []⟩) ∧
    (used = (controllers.length : Int) →
      arduino_on_device_ready controllers used d = ⟨.noSlots, controllers, used, d, []⟩) := by
  constructor
  · intro hused hheld
    simp [arduino_on_device_ready, hused, hheld]
  · intro hused
    simp [arduino_on_device_ready, hused]

/-- Closed instance of the C9 amended theorem at a concrete held instance. -/
theorem C9_already_assigned_rejected_witness :
    arduino_on_device_ready (List.replicate 4 clearedSlot) 0
        { id := 3, info := devInfo 1, controller_idx := 2 } =
      ⟨UniError.invalidController, List.replicate 4 clearedSlot, 0,
        { id := 3, info := devInfo 1, controller_idx := 2 }, []⟩ :=
  (C9_already_assigned_rejected (List.replicate 4 clearedSlot) 0
    { id := 3, info := devInfo 1, controller_idx := 2 }).1 (by decide) (by decide)

/-- C8 evaluation at the failing input: a device whose controller type is 2 and
controller subtype is 7 is assigned to slot 0 of an empty table; the slot's
identity stores 2 — the controller type — in its subtype field, not the
device's subtype 7, because source line 212 copies `d->controller_type` into
`properties.subtype`. The remaining identity fields are copied as claimed. -/
theorem C8_subtype_stores_type :
    ((arduino_on_device_ready (List.replicate 4 clearedSlot) 0
        { id := 1,
          info := { btaddr := [1, 2, 3, 4, 5, 6], controller_type := 2, controller_subtype := 7,
                    vendor_id := 1118, product_id := 654,
                    has_set_player_leds := true, has_play_dual_rumble := false,
                    has_set_lightbar_color := true },
          controller_idx := -1 }).controllers.getD 0 clearedSlot).properties =
      { btaddr := [1, 2, 3, 4, 5, 6], type := 2, subtype := 2, vendor_id := 1118,
        product_id := 654,
        flags := { player_leds := true, rumble := false, lightbar := true } } := by
  decide

/-- C10: on a successful assignment of a device that advertises the player-LED
capability, `arduino_on_device_ready` invokes that device's `set_player_leds`
exactly once with the assigned slot index plus one (the 1-based player number)
and returns SUCCESS. -/
theorem C10_connect_time_player_led (controllers : List ArduinoController) (used : Int)
    (d : UniHidDevice) (i : Nat)
    (hused : used ≠ (controllers.length : Int))
    (hfree : d.controller_idx = UNI_ARDUINO_GAMEPAD_INVALID)
    (hfind : firstFreeSlot controllers = some i)
    (hled : d.info.has_set_player_leds = true) :
    (arduino_on_device_ready controllers used d).status = .success ∧
    (arduino_on_device_ready controllers used d).calls = [CapCall.setPlayerLeds d.id (i + 1)] ∧
    (arduino_on_device_ready controllers used d).dev.controller_idx = (i : Int) := by
  simp [arduino_on_device_ready, hused, hfree, hfind, hled]

/-- Closed instance of the C10 theorem on an empty two-slot table. -/
theorem C10_connect_time_player_led_witness :
    (arduino_on_device_ready (List.replicate 2 clearedSlot) 0
        { id := 9, info := devInfo 3, controller_idx := -1 }).calls =
      [CapCall.setPlayerLeds 9 1] :=
  (C10_connect_time_player_led (List.replicate 2 clearedSlot) 0
    { id := 9, info := devInfo 3, controller_idx := -1 } 0
    (by decide) (by decide) (by decide) (by decide)).2.1

/-- Status `arduino_on_device_ready` returns when invoked (by the stack) for the
live device with the given id in the given state. -/
def readyStatusAt (s : PlatformState) (id : Nat) : Option UniError :=
  (s.devices.find? (fun x => x.id == id)).map
    (fun d => (arduino_on_device_ready s.controllers s.used_controllers d).status)

set_option maxRecDepth 8000 in
/-- C5: on an initially empty 4-slot table, four consecutive assigns of distinct
devices succeed with the distinct slot indices 0, 1, 2, 3 (first-fit); a fifth
assign returns NO_SLOTS and alters no existing slot; after releasing slot 2 the
next assign succeeds, reusing slot index 2 populated with the new device's
identity. -/
theorem C5_first_fit_assignment :
    readyStatusAt (runEvents 4 (scenarioAssign4.take 1)) 10 = some .success ∧
    readyStatusAt (runEvents 4 (scenarioAssign4.take 3)) 11 = some .success ∧
    readyStatusAt (runEvents 4 (scenarioAssign4.take 5)) 12 = some .success ∧
    readyStatusAt (runEvents 4 (scenarioAssign4.take 7)) 13 = some .success ∧
    s4.devices.map (fun d => (d.id, d.controller_idx)) = [(10, 0), (11, 1), (12, 2), (13, 3)] ∧
    s4.controllers.map (fun c => c.idx) = [0, 1, 2, 3] ∧
    readyStatusAt (runEvents 4 (scenarioAssign4 ++ [.connected 14 (devInfo 5)])) 14 =
      some .noSlots ∧
    (runEvents 4 (scenarioAssign4 ++ [.connected 14 (devInfo 5), .ready 14])).controllers =
      s4.controllers ∧
    (let s6 := runEvents 4
        (scenarioAssign4 ++ [.disconnected 12, .connected 15 (devInfo 6), .ready 15])
     (slotAt s6 2).idx = 2 ∧
     (slotAt s6 2).properties =
       mkProperties { id := 15, info := devInfo 6, controller_idx := -1 } ∧
     s6.devices.map (fun d => (d.id, d.controller_idx)) = [(10, 0), (11, 1), (13, 3), (15, 2)] ∧
     s6.used_controllers = 4) := by
  decide

/-- Inductive invariant tying together the slot table, the in-use counter, and
the live devices' instance fields. -/
structure BridgeInv (s : PlatformState) : Prop where
  used_eq : s.used_controllers = (assignedCount s.controllers : Int)
  self_indexed : slotsSelfIndexed s.controllers
  dev_valid : ∀ d ∈ s.devices, d.controller_idx ≠ UNI_ARDUINO_GAMEPAD_INVALID →
    0 ≤ d.controller_idx ∧ d.controller_idx < (s.controllers.length : Int) ∧
    (s.controllers.getD d.controller_idx.toNat clearedSlot).idx ≠ UNI_ARDUINO_GAMEPAD_INVALID
  ids_distinct : s.devices.Pairwise (fun a b => a.id ≠ b.id)
  idx_distinct : s.devices.Pairwise (fun a b =>
    a.controller_idx = UNI_ARDUINO_GAMEPAD_INVALID ∨
    b.controller_idx = UNI_ARDUINO_GAMEPAD_INVALID ∨
    a.controller_idx ≠ b.controller_idx)

/-- A successful first-free scan returns an in-range index of an unassigned slot. -/
theorem firstFreeSlot_some_spec : ∀ (l : List ArduinoController) (i : Nat),
    firstFreeSlot l = some i →
    i < l.length ∧ (l.getD i clearedSlot).idx = UNI_ARDUINO_GAMEPAD_INVALID := by
  intro l
  induction l with
  | nil => intro i h; simp [firstFreeSlot] at h
  | cons c rest ih =>
    intro i h
    by_cases hc : c.idx = UNI_ARDUINO_GAMEPAD_INVALID
    · simp [firstFreeSlot, hc] at h
      subst h
      simpa [List.getD_cons_zero] using hc
    · simp [firstFreeSlot, hc, Option.map_eq_some'] at h
      obtain ⟨j, hj, rfl⟩ := h
      have hrec := ih j hj
      refine ⟨by simpa using Nat.succ_lt_succ hrec.1, ?_⟩
      simpa [List.getD_cons_succ] using hrec.2

/-- A failed first-free scan means every slot is assigned. -/
theorem firstFreeSlot_none_spec : ∀ (l : List ArduinoController),
    firstFreeSlot l = none → ∀ c ∈ l, c.idx ≠ UNI_ARDUINO_GAMEPAD_INVALID := by
  intro l
  induction l with
  | nil => intro _ c hc; simp at hc
  | cons x rest ih =>
    intro h c hc
    by_cases hx : x.idx = UNI_ARDUINO_GAMEPAD_INVALID
    · simp [firstFreeSlot, hx] at h
    · simp [firstFreeSlot, hx] at h
      rcases List.mem_cons.mp hc with rfl | hmem
      · exact hx
      · exact ih h c hmem

/-- In a list of devices with pairwise-distinct ids, an element sharing the id
of a member equals that member. -/
theorem unique_by_id {devices : List UniHidDevice}
    (hids : devices.Pairwise (fun a b => a.id ≠ b.id))
    {d x : UniHidDevice} (hd : d ∈ devices) (hx : x ∈ devices) (hid : x.id = d.id) :
    x = d := by
  by_contra hne
  have hsym : Symmetric (fun a b : UniHidDevice => a.id ≠ b.id) :=
    fun a b hab => fun hba => hab hba.symm
  exact (List.Pairwise.forall hsym hids hx hd hne) hid

/-- Replacing by id preserves each element's id. -/
theorem replaceDevice_map_id (devices : List UniHidDevice) (d' : UniHidDevice) :
    (replaceDevice devices d').map (fun x => x.id) = devices.map (fun x => x.id) := by
  unfold replaceDevice
  rw [List.map_map]
  apply List.map_congr_left
  intro x hx
  by_cases h : x.id = d'.id <;> simp [h]

/-- Replacing a member that is the unique holder of its id by itself is the
identity. -/
theorem replaceDevice_self {devices : List UniHidDevice}
    (hids : devices.Pairwise (fun a b => a.id ≠ b.id))
    {d : UniHidDevice} (hd : d ∈ devices) :
    replaceDevice devices d = devices := by
  unfold replaceDevice
  have : ∀ x ∈ devices, (if x.id = d.id then d else x) = id x := by
    intro x hx
    by_cases h : x.id = d.id
    · simp [h, unique_by_id hids hd hx h]
    · simp [h]
  rw [List.map_congr_left this, List.map_id]

/-- Self-indexing is preserved by writing a slot that is either cleared or
stores the written position. -/
theorem slotsSelfIndexed_set (l : List ArduinoController) (j : Nat) (a : ArduinoController)
    (ha : a.idx = UNI_ARDUINO_GAMEPAD_INVALID ∨ a.idx = (j : Int))
    (h : slotsSelfIndexed l) : slotsSelfIndexed (l.set j a) := by
  intro k hk hne
  have hk' : k < l.length := by simpa using hk
  by_cases hjk : j = k
  · subst hjk
    rw [getD_set_self l j a clearedSlot (by simpa using hk')] at hne ⊢
    rcases ha with ha | ha
    · exact absurd ha hne
    · exact ha
  · rw [getD_set_ne l a clearedSlot hjk] at hne ⊢
    exact h k hk' hne

/-- The initialized state satisfies the invariant. -/
theorem bridgeInv_init (n : Nat) : BridgeInv (arduino_init n) := by
  refine ⟨?_, ?_, ?_, ?_, ?_⟩
  · show (0 : Int) = (assignedCount (List.replicate n clearedSlot) : Int)
    have : assignedCount (List.replicate n clearedSlot) = 0 := by
      apply List.countP_eq_zero.mpr
      intro a ha
      have := List.eq_of_mem_replicate ha
      subst this
      simp [clearedSlot]
    rw [this]
    rfl
  · intro i h hne
    exfalso
    apply hne
    simp only [arduino_init] at h ⊢
    rw [List.getD_eq_getElem?_getD, List.getElem?_replicate]
    rw [if_pos (by simpa using h)]
    rfl
  · intro d hd
    simp [arduino_init] at hd
  · simp [arduino_init]
  · simp [arduino_init]

/-- A connect event preserves the invariant. -/
theorem inv_step_connected (s : PlatformState) (id : Nat) (info : DeviceInfo)
    (h : BridgeInv s) : BridgeInv (stepEvent s (.connected id info)) := by
  simp only [stepEvent]
  refine ⟨h.used_eq, h.self_indexed, ?_, ?_, ?_⟩
  · intro x hx hxidx
    rcases List.mem_append.mp hx with hmem | hmem
    · exact h.dev_valid x (List.mem_of_mem_filter hmem) hxidx
    · exfalso
      apply hxidx
      rw [List.mem_singleton.mp hmem]
      rfl
  · rw [List.pairwise_append]
    refine ⟨List.Pairwise.sublist (List.filter_sublist _) h.ids_distinct,
      List.pairwise_singleton _ _, ?_⟩
    intro a ha b hb
    rw [List.mem_singleton.mp hb]
    show a.id ≠ id
    simpa using List.of_mem_filter ha
  · rw [List.pairwise_append]
    refine ⟨List.Pairwise.sublist (List.filter_sublist _) h.idx_distinct,
      List.pairwise_singleton _ _, ?_⟩
    intro a ha b hb
    rw [List.mem_singleton.mp hb]
    exact Or.inr (Or.inl rfl)

/-- A disconnect event preserves the invariant. -/
theorem inv_step_disconnected (s : PlatformState) (id : Nat) (h : BridgeInv s) :
    BridgeInv (stepEvent s (.disconnected id)) := by
  simp only [stepEvent]
  cases hfind : s.devices.find? (fun x => x.id == id) with
  | none => exact h
  | some d =>
    have hd_mem : d ∈ s.devices := List.mem_of_find?_eq_some hfind
    have hd_id : d.id = id := by simpa using List.find?_some hfind
    by_cases hidx : d.controller_idx = UNI_ARDUINO_GAMEPAD_INVALID
    · simp only [arduino_on_device_disconnected, hidx, ne_eq, not_true_eq_false, if_false]
      refine ⟨h.used_eq, h.self_indexed, ?_, ?_, ?_⟩
      · intro x hx hxidx
        exact h.dev_valid x (List.mem_of_mem_filter hx) hxidx
      · exact List.Pairwise.sublist (List.filter_sublist _) h.ids_distinct
      · exact List.Pairwise.sublist (List.filter_sublist _) h.idx_distinct
    · obtain ⟨hge, hlt, hassigned⟩ := h.dev_valid d hd_mem hidx
      have hguard : ¬(d.controller_idx < 0 ∨ (s.controllers.length : Int) ≤ d.controller_idx) := by
        omega
      have hjlen : d.controller_idx.toNat < s.controllers.length := by omega
      simp only [arduino_on_device_disconnected, if_pos hidx, if_neg hguard]
      refine ⟨?_, ?_, ?_, ?_, ?_⟩
      · show s.used_controllers - 1 =
          (assignedCount (s.controllers.set d.controller_idx.toNat clearedSlot) : Int)
        have hp1 : ((s.controllers.getD d.controller_idx.toNat clearedSlot).idx !=
            UNI_ARDUINO_GAMEPAD_INVALID) = true := by simpa using hassigned
        have hp2 : (clearedSlot.idx != UNI_ARDUINO_GAMEPAD_INVALID) = false := by decide
        have hc := countP_set_add (fun c => c.idx != UNI_ARDUINO_GAMEPAD_INVALID)
          s.controllers d.controller_idx.toNat clearedSlot clearedSlot hjlen
        beta_reduce at hc
        rw [hp1, hp2] at hc
        norm_num at hc
        have hused := h.used_eq
        unfold assignedCount at hused ⊢
        omega
      · exact slotsSelfIndexed_set s.controllers d.controller_idx.toNat clearedSlot
          (Or.inl rfl) h.self_indexed
      · intro x hx hxidx
        have hxmem : x ∈ s.devices := List.mem_of_mem_filter hx
        have hxid : x.id ≠ id := by simpa using List.of_mem_filter hx
        obtain ⟨hxge, hxlt, hxassigned⟩ := h.dev_valid x hxmem hxidx
        have hxd : x ≠ d := fun he => hxid (he ▸ hd_id)
        have hsym : Symmetric (fun a b : UniHidDevice =>
            a.controller_idx = UNI_ARDUINO_GAMEPAD_INVALID ∨
            b.controller_idx = UNI_ARDUINO_GAMEPAD_INVALID ∨
            a.controller_idx ≠ b.controller_idx) := by
          intro a b hab
          rcases hab with hh | hh | hh
          · exact Or.inr (Or.inl hh)
          · exact Or.inl hh
          · exact Or.inr (Or.inr (fun he => hh he.symm))
        have hR := List.Pairwise.forall hsym h.idx_distinct hxmem hd_mem hxd
        rcases hR with hh | hh | hh
        · exact absurd hh hxidx
        · exact absurd hh hidx
        · have hjne : d.controller_idx.toNat ≠ x.controller_idx.toNat := by omega
          refine ⟨hxge, by simpa using hxlt, ?_⟩
          rw [getD_set_ne _ _ _ hjne]
          exact hxassigned
      · exact List.Pairwise.sublist (List.filter_sublist _) h.ids_distinct
      · exact List.Pairwise.sublist (List.filter_sublist _) h.idx_distinct

/-- A ready (assignment) event preserves the invariant. -/
theorem inv_step_ready (s : PlatformState) (id : Nat) (h : BridgeInv s) :
    BridgeInv (stepEvent s (.ready id)) := by
  simp only [stepEvent]
  cases hfind : s.devices.find? (fun x => x.id == id) with
  | none => exact h
  | some d =>
    have hd_mem : d ∈ s.devices := List.mem_of_find?_eq_some hfind
    have hd_id : d.id = id := by simpa using List.find?_some hfind
    by_cases hfull : s.used_controllers = (s.controllers.length : Int)
    · simp only [arduino_on_device_ready, if_pos hfull]
      rw [replaceDevice_self h.ids_distinct hd_mem]
      exact h
    · by_cases hheld : d.controller_idx ≠ UNI_ARDUINO_GAMEPAD_INVALID
      · simp only [arduino_on_device_ready, if_neg hfull, if_pos hheld]
        rw [replaceDevice_self h.ids_distinct hd_mem]
        exact h
      · push_neg at hheld
        cases hfree : firstFreeSlot s.controllers with
        | none =>
          exfalso
          have hall := firstFreeSlot_none_spec _ hfree
          have hlen : assignedCount s.controllers = s.controllers.length :=
            List.countP_eq_length.mpr (fun c hc => by simpa using hall c hc)
          apply hfull
          rw [h.used_eq, hlen]
        | some i =>
          obtain ⟨hi_len, hi_free⟩ := firstFreeSlot_some_spec _ _ hfree
          simp only [arduino_on_device_ready, if_neg hfull,
            if_neg (not_not.mpr hheld), hfree]
          refine ⟨?_, ?_, ?_, ?_, ?_⟩
          · show s.used_controllers + 1 = (assignedCount (s.controllers.set i
              { s.controllers.getD i clearedSlot with
                  idx := (i : Int), properties := mkProperties d }) : Int)
            have hp1 : ((s.controllers.getD i clearedSlot).idx !=
                UNI_ARDUINO_GAMEPAD_INVALID) = false := by
              rw [hi_free]
              decide
            have hp2 : (({ s.controllers.getD i clearedSlot with
                idx := (i : Int), properties := mkProperties d }).idx !=
                UNI_ARDUINO_GAMEPAD_INVALID) = true := by
              simp only [bne_iff_ne]
              show (i : Int) ≠ UNI_ARDUINO_GAMEPAD_INVALID
              unfold UNI_ARDUINO_GAMEPAD_INVALID
              omega
            have hc := countP_set_add (fun c => c.idx != UNI_ARDUINO_GAMEPAD_INVALID)
              s.controllers i
              { s.controllers.getD i clearedSlot with
                  idx := (i : Int), properties := mkProperties d } clearedSlot hi_len
            beta_reduce at hc
            rw [hp1, hp2] at hc
            rw [if_neg (show ¬(false = true) by decide),
              if_pos (show true = true from rfl)] at hc
            have hused := h.used_eq
            unfold assignedCount at hused ⊢
            omega
          · exact slotsSelfIndexed_set s.controllers i _ (Or.inr rfl) h.self_indexed
          · intro x' hx' hx'idx
            have hx'' : x' ∈ List.map (fun x =>
                if x.id = ({ d with controller_idx := (i : Int) } : UniHidDevice).id then
                  { d with controller_idx := (i : Int) } else x) s.devices := hx'
            obtain ⟨x, hx, rfl⟩ := List.mem_map.mp hx''
            by_cases hxid : x.id = ({ d with controller_idx := (i : Int) } : UniHidDevice).id
            · simp only [if_pos hxid]
              refine ⟨by omega, ?_, ?_⟩
              · show (i : Int) < ((s.controllers.set i _).length : Int)
                rw [List.length_set]
                exact_mod_cast hi_len
              · show ((s.controllers.set i _).getD ((i : Int)).toNat clearedSlot).idx ≠
                  UNI_ARDUINO_GAMEPAD_INVALID
                rw [Int.toNat_natCast,
                  getD_set_self s.controllers i _ clearedSlot hi_len]
                show (i : Int) ≠ UNI_ARDUINO_GAMEPAD_INVALID
                unfold UNI_ARDUINO_GAMEPAD_INVALID
                omega
            · simp only [if_neg hxid] at hx'idx ⊢
              obtain ⟨hge, hlt, hassigned⟩ := h.dev_valid x hx hx'idx
              refine ⟨hge, by simpa using hlt, ?_⟩
              have hne_slot : i ≠ x.controller_idx.toNat := by
                intro he
                apply hassigned
                rw [← he]
                exact hi_free
              rw [getD_set_ne _ _ _ hne_slot]
              exact hassigned
          · apply List.pairwise_map.mpr
            apply h.ids_distinct.imp
            intro a b hab
            have hfa : ∀ x : UniHidDevice,
                (if x.id = ({ d with controller_idx := (i : Int) } : UniHidDevice).id then
                  { d with controller_idx := (i : Int) } else x).id = x.id := by
              intro x
              by_cases hx : x.id = ({ d with controller_idx := (i : Int) } : UniHidDevice).id
              · simp [hx]
              · simp [hx]
            rw [hfa, hfa]
            exact hab
          · apply List.pairwise_map.mpr
            apply List.Pairwise.imp_of_mem ?_ (h.ids_distinct.and h.idx_distinct)
            intro a b ha hb hab
            obtain ⟨hidne, hR⟩ := hab
            by_cases haid : a.id = ({ d with controller_idx := (i : Int) } : UniHidDevice).id
            · have hbid : ¬(b.id = ({ d with controller_idx := (i : Int) } : UniHidDevice).id) :=
                fun hb' => hidne (by rw [haid, hb'])
              simp only [if_pos haid, if_neg hbid]
              by_cases hbidx : b.controller_idx = UNI_ARDUINO_GAMEPAD_INVALID
              · exact Or.inr (Or.inl hbidx)
              · obtain ⟨hbge, hblt, hbassigned⟩ := h.dev_valid b hb hbidx
                refine Or.inr (Or.inr ?_)
                show (i : Int) ≠ b.controller_idx
                intro he
                apply hbassigned
                rw [← he, Int.toNat_natCast]
                exact hi_free
            · by_cases hbid : b.id = ({ d with controller_idx := (i : Int) } : UniHidDevice).id
              · simp only [if_neg haid, if_pos hbid]
                by_cases haidx : a.controller_idx = UNI_ARDUINO_GAMEPAD_INVALID
                · exact Or.inl haidx
                · obtain ⟨hage, halt, haassigned⟩ := h.dev_valid a ha haidx
                  refine Or.inr (Or.inr ?_)
                  show a.controller_idx ≠ (i : Int)
                  intro he
                  apply haassigned
                  rw [he, Int.toNat_natCast]
                  exact hi_free
              · simp only [if_neg haid, if_neg hbid]
                exact hR

/-- Every state reachable from the initialized state through lifecycle events
satisfies the invariant. -/
theorem bridgeInv_runEvents (n : Nat) (events : List BridgeEvent) :
    BridgeInv (runEvents n events) := by
  unfold runEvents
  have hstep : ∀ (evs : List BridgeEvent) (s : PlatformState), BridgeInv s →
      BridgeInv (evs.foldl stepEvent s) := by
    intro evs
    induction evs with
    | nil => intro s hs; exact hs
    | cons e rest ih =>
      intro s hs
      apply ih
      cases e with
      | connected id info => exact inv_step_connected s id info hs
      | ready id => exact inv_step_ready s id hs
      | disconnected id => exact inv_step_disconnected s id hs
  exact hstep events (arduino_init n) (bridgeInv_init n)

/-- C4: after every finite sequence of lifecycle (assign/release) events from
the initialized state, the in-use counter `used_controllers_` equals the number
of slots whose idx field is not the invalid sentinel, every assigned slot i
stores idx = i, and therefore no two assigned slots share a stored slot index. -/
theorem C4_used_counter_matches_assigned_slots (n : Nat) (events : List BridgeEvent) :
    (runEvents n events).used_controllers =
      (assignedCount (runEvents n events).controllers : Int) ∧
    slotsSelfIndexed (runEvents n events).controllers ∧
    (∀ i j, i < (runEvents n events).controllers.length →
      j < (runEvents n events).controllers.length → i ≠ j →
      ((runEvents n events).controllers.getD i clearedSlot).idx ≠ UNI_ARDUINO_GAMEPAD_INVALID →
      ((runEvents n events).controllers.getD j clearedSlot).idx ≠ UNI_ARDUINO_GAMEPAD_INVALID →
      ((runEvents n events).controllers.getD i clearedSlot).idx ≠
        ((runEvents n events).controllers.getD j clearedSlot).idx) := by
  have h := bridgeInv_runEvents n events
  refine ⟨h.used_eq, h.self_indexed, ?_⟩
  intro i j hi hj hij hai haj
  rw [h.self_indexed i hi hai, h.self_indexed j hj haj]
  exact_mod_cast hij

set_option maxRecDepth 8000 in
/-- Closed instance of the C4 theorem on the concrete four-assignment trace. -/
theorem C4_used_counter_matches_assigned_slots_witness :
    (runEvents 4 scenarioAssign4).used_controllers =
      (assignedCount (runEvents 4 scenarioAssign4).controllers : Int) ∧
    ((runEvents 4 scenarioAssign4).controllers.getD 0 clearedSlot).idx ≠
      ((runEvents 4 scenarioAssign4).controllers.getD 1 clearedSlot).idx :=
  ⟨(C4_used_counter_matches_assigned_slots 4 scenarioAssign4).1,
   (C4_used_counter_matches_assigned_slots 4 scenarioAssign4).2.2 0 1 (by decide) (by decide)
     (by decide) (by decide) (by decide)⟩
